import Mathlib

set_option maxRecDepth 8000

/-!
Verification of the FieldbookViewer parcel-lookup and document-assembly
subsystem, shallowly embedded from `src/main.py`.

Embedding conventions:
* Filenames and captions are `String`s (lists of `Char`); the Python regex
  `re.match(r"(\d+)-(\d+)\.jpe?g", f, re.IGNORECASE)` is modelled by
  `decodeChars`, which matches a prefix of the character list exactly as
  `re.match` does (no end anchor).  The character class `\d` is modelled as
  the ASCII digits `0`-`9`.
* Directory listings are modelled as `Option (List String)`: `none` is an
  absent directory, `some files` a present one with its enumeration order.
  `os.listdir` on an absent directory raises `FileNotFoundError`, modelled
  by `Except`/an explicit error component.
* `FieldbookDocManager` is embedded field by field; the Python `self.section`
  is `None` exactly when `self.doc` is `None`, so it is folded into `doc`.
  A docx document is modelled as its body (a list of page breaks, caption
  paragraphs and pictures) plus its footer part (paragraphs and tables).
  Raising `AttributeError` by dereferencing the `None` section/doc is the
  concrete realization of the spec's `NotBoundError`.
* Methods that can raise return `Except` or carry an explicit error
  component next to the post-state, so that mutation-before-raise order is
  preserved.
-/

namespace FieldbookViewer

/-! ## Numeral substitution (`to_nepali_number`, src/main.py lines 40-42) -/

/-- The digit table of `str.maketrans('0123456789', '०१२३४५६७८९')`:
characters in the table are replaced, all others are left unchanged. -/
def devanagariOfDigit (c : Char) : Char :=
  if c = '0' then '०' else if c = '1' then '१' else if c = '2' then '२'
  else if c = '3' then '३' else if c = '4' then '४' else if c = '5' then '५'
  else if c = '6' then '६' else if c = '7' then '७' else if c = '8' then '८'
  else if c = '9' then '९' else c

/-- `to_nepali_number`: `str(num).translate(num_map)` applies the digit table
to every character of the string. -/
def to_nepali_number (s : String) : String := ⟨s.data.map devanagariOfDigit⟩

/-- The ten decimal digit characters (the domain of the translation table). -/
def digitChars : List Char := ['0', '1', '2', '3', '4', '5', '6', '7', '8', '9']

/-- The ten Devanagari digit glyphs (the range of the translation table). -/
def devanagariDigits : List Char := ['०', '१', '२', '३', '४', '५', '६', '७', '८', '९']

/-! ## Range-filename decoding (the regex at src/main.py lines 646, 673, 681, 708, 721) -/

/-- Decimal value of a digit string, as Python `int` on the captured group. -/
def natOfDigits (l : List Char) : Nat := l.foldl (fun a c => 10 * a + (c.toNat - '0'.toNat)) 0

/-- Case-insensitive match of the letter `j` (the `re.IGNORECASE` flag). -/
def isJchar (c : Char) : Bool := c = 'j' || c = 'J'

/-- Case-insensitive match of the letter `p`. -/
def isPchar (c : Char) : Bool := c = 'p' || c = 'P'

/-- Case-insensitive match of the letter `e`. -/
def isEchar (c : Char) : Bool := c = 'e' || c = 'E'

/-- Case-insensitive match of the letter `g`. -/
def isGchar (c : Char) : Bool := c = 'g' || c = 'G'

/-- The regex tail `e?g` after `jp`: the engine first tries to consume an
`e` and then a `g`; on failure it backtracks and tries `g` directly.
Any remaining characters are ignored (`re.match` has no end anchor). -/
def matchExtTail : List Char → Bool
  | [] => false
  | c3 :: rest =>
    (isEchar c3 && (match rest with | c4 :: _ => isGchar c4 | [] => false)) || isGchar c3

/-- The extension part `jpe?g` of the pattern, applied after the dot. -/
def extOk : List Char → Bool
  | c1 :: c2 :: rest => isJchar c1 && isPchar c2 && matchExtTail rest
  | _ => false

/-- `re.match(r"(\d+)-(\d+)\.jpe?g", cs, re.IGNORECASE)` together with the
two captured groups read as `int`.  `\d+` is greedy and a digit can never
match `-` or `.`, so each group is the maximal digit run; the match only
anchors at the start of the string. -/
def decodeChars (cs : List Char) : Option (Nat × Nat) :=
  match cs.dropWhile Char.isDigit with
  | c :: r2 =>
    if c = '-' then
      match r2.dropWhile Char.isDigit with
      | c' :: r4 =>
        if c' = '.' then
          if (cs.takeWhile Char.isDigit).isEmpty || (r2.takeWhile Char.isDigit).isEmpty then
            none
          else if extOk r4 then
            some (natOfDigits (cs.takeWhile Char.isDigit), natOfDigits (r2.takeWhile Char.isDigit))
          else none
        else none
      | [] => none
    else none
  | [] => none

/-- Decoding of a filename to its inclusive parcel range. -/
def decode (s : String) : Option (Nat × Nat) := decodeChars s.data

/-- Modelled from the spec: the fully anchored pattern
`^(\d+)-(\d+)\.(jpg|jpeg)$` with case-insensitive extension, which the spec
claims to be the exact domain of `decode`.  It differs from the code's
`re.match` in requiring the string to end right after the extension. -/
def specFullMatch (s : String) : Option (Nat × Nat) :=
  let cs := s.data
  match cs.dropWhile Char.isDigit with
  | c :: r2 =>
    if c = '-' then
      match r2.dropWhile Char.isDigit with
      | c' :: r4 =>
        if c' = '.' then
          if (cs.takeWhile Char.isDigit).isEmpty || (r2.takeWhile Char.isDigit).isEmpty then
            none
          else if (match r4 with
                   | [c1, c2, c3] => isJchar c1 && isPchar c2 && isGchar c3
                   | [c1, c2, c3, c4] => isJchar c1 && isPchar c2 && isEchar c3 && isGchar c4
                   | _ => false) then
            some (natOfDigits (cs.takeWhile Char.isDigit), natOfDigits (r2.takeWhile Char.isDigit))
          else none
        else none
      | [] => none
    else none
  | [] => none

/-- The extension of the pattern spelled out: `jpg` or `jpeg`, each letter in
either case. -/
def jpgOrJpeg (ext : List Char) : Prop :=
  (∃ c1 c2 c3, ext = [c1, c2, c3] ∧
    (c1 = 'j' ∨ c1 = 'J') ∧ (c2 = 'p' ∨ c2 = 'P') ∧ (c3 = 'g' ∨ c3 = 'G')) ∨
  (∃ c1 c2 c3 c4, ext = [c1, c2, c3, c4] ∧
    (c1 = 'j' ∨ c1 = 'J') ∧ (c2 = 'p' ∨ c2 = 'P') ∧ (c3 = 'e' ∨ c3 = 'E') ∧ (c4 = 'g' ∨ c4 = 'G'))

/-! ## Parcel search (`BookViewer.search_image`, src/main.py lines 695-732) -/

/-- The per-file test of the search loop: the filename decodes and the
decoded range contains the parcel, `int(m.group(1)) <= int(parcel) <= int(m.group(2))`. -/
def rangeContains (filename : String) (parcel : Nat) : Bool :=
  match decode filename with
  | some (lo, hi) => lo ≤ parcel && parcel ≤ hi
  | none => false

/-- The loop `for img in os.listdir(path): ... break` over a present
directory listing: the first file in enumeration order whose decoded range
contains the parcel. -/
def search_image (files : List String) (parcel : Nat) : Option String :=
  files.find? (fun f => rangeContains f parcel)

/-- The exception raised by `os.listdir` on an absent directory. -/
inductive FsError where
  | fileNotFound
deriving DecidableEq

/-- `search_image` at the filesystem level: the resolved leaf directory is
either absent (`none`) or a listing.  The code calls `os.listdir` on the
resolved path with no `isdir` guard, so an absent directory raises. -/
def search_image_fs (dir : Option (List String)) (parcel : Nat) :
    Except FsError (Option String) :=
  match dir with
  | none => .error .fileNotFound
  | some files => .ok (search_image files parcel)

/-! ## Footer fields and sentence (`FieldbookDocManager`, src/main.py lines 109-199) -/

/-- The five free-text footer fields collected by `FieldbookBottomTextDialog`. -/
structure FooterInfo where
  patra_pathaune : String
  chan_dan : String
  miti : String
  prayojan : String
  rasid_no : String
deriving DecidableEq

/-- The helper `safe(k, dots)` of `get_footer_line`: the field value if it is
non-empty, else the dotted placeholder run. -/
def safe (val dots : String) : String := if val = "" then dots else val

/-- The 20-dot placeholder of the patra_pathaune slot. -/
def dots20 : String := "...................."

/-- The 7-dot placeholder of the chan_dan slot. -/
def dots7 : String := "......."

/-- The 13-dot placeholder of the miti slot. -/
def dots13 : String := "............."

/-- The 15-dot placeholder of the prayojan slot. -/
def dots15 : String := "..............."

/-- The 21-dot placeholder of the rasid_no slot. -/
def dots21 : String := "....................."

/-- `get_footer_line`: the fixed template sentence with each field
substituted through `safe` (dotted runs of lengths 20, 7, 13, 15, 21). -/
def get_footer_line (info : FooterInfo) : String :=
  "श्री " ++ safe info.patra_pathaune dots20 ++
  " को च.नं./द.नं. " ++ safe info.chan_dan dots7 ++
  " मिति " ++ safe info.miti dots13 ++
  " को पत्रानुसार " ++ safe info.prayojan dots15 ++
  " प्रयोजनको लागि  रसिद नं " ++ safe info.rasid_no dots21 ++
  " बाट राजश्व लिई कम्प्युटरबाट फिल्डबुक/प्लट रजिष्टर प्रतिलिपि उतार गरि पठाइएको व्यहोरा अनुरोध छ ।"

/-- A run of `n` dots, as used for the placeholder runs of the sentence. -/
def dotsRun (n : Nat) : List Char := List.replicate n '.'

/-! ## Document assembler state -/

/-- One element of the document body: `add_page_break`, a caption paragraph,
or a picture (identified abstractly by a number). -/
inductive DocEntry where
  | pageBreak
  | caption (text : String)
  | picture (img : Nat)
deriving DecidableEq

/-- Recognizer for page breaks, to count them. -/
def DocEntry.isBreak : DocEntry → Bool
  | .pageBreak => true
  | _ => false

/-- Number of page breaks in a document body. -/
def countBreaks (l : List DocEntry) : Nat := l.countP DocEntry.isBreak

/-- One child of the footer part: a `w:p` paragraph or a `w:tbl` table with
its cell texts. -/
inductive FooterElem where
  | fpar (text : String)
  | ftable (cells : List String)
deriving DecidableEq

/-- An in-memory docx document: its body entries and its footer children. -/
structure DocState where
  body : List DocEntry
  footer : List FooterElem
deriving DecidableEq

/-- The manager's fields (src/main.py lines 110-116); `self.section` is
`None` exactly when `self.doc` is, so it is represented by `doc` itself. -/
structure FieldbookDocManager where
  doc : Option DocState
  images_on_page : Nat
  max_images_per_page : Nat
  loaded_template : Option String
  footer_info : Option FooterInfo
deriving DecidableEq

/-- The freshly constructed manager (`__init__`). -/
def initMgr : FieldbookDocManager :=
  { doc := none, images_on_page := 0, max_images_per_page := 3,
    loaded_template := none, footer_info := none }

/-- `new_from_template`: binds the template document (whose initial content
is the parameter `tpl`), resets the page counter and clears the footer
fields. -/
def new_from_template (m : FieldbookDocManager) (path : String) (tpl : DocState) :
    FieldbookDocManager :=
  { m with doc := some tpl, loaded_template := some path,
           images_on_page := 0, footer_info := none }

/-- The `AttributeError` raised by dereferencing the `None` section/document
of an unbound manager; this realizes the spec's `NotBoundError`. -/
inductive NotBoundError where
  | noneTypeAttribute
deriving DecidableEq

/-- The caption `meta_text` of `add_image` (src/main.py lines 163-165):
the region name verbatim, the other numerals through `to_nepali_number`. -/
def meta_text (vdc ward sheet parcel : String) : String :=
  "गा.वि.स: " ++ vdc ++ " | वडा नं: " ++ to_nepali_number ward ++
  " | सिट: " ++ to_nepali_number sheet ++ " | कित्ता नं: " ++ to_nepali_number parcel

/-- `add_image` (src/main.py lines 162-186).  On an unbound manager the
access `self.section.page_width` raises before any state is mutated.  On a
bound manager: if `images_on_page >= max_images_per_page` a page break is
appended and the counter reset to 0; then the caption paragraph and the
picture are appended and the counter incremented. -/
def add_image (m : FieldbookDocManager) (img : Nat) (vdc ward sheet parcel : String) :
    Except NotBoundError FieldbookDocManager :=
  match m.doc with
  | none => .error .noneTypeAttribute
  | some d =>
    let text := meta_text vdc ward sheet parcel
    let afterBreak : List DocEntry × Nat :=
      if m.max_images_per_page ≤ m.images_on_page then (d.body ++ [.pageBreak], 0)
      else (d.body, m.images_on_page)
    .ok { m with
          doc := some { d with body := afterBreak.1 ++ [.caption text, .picture img] },
          images_on_page := afterBreak.2 + 1 }

/-- The three fixed role labels of the signature table. -/
def footer_cells : List String := ["प्रिन्ट गर्ने", "रुजु गर्ने", "प्रमाणित गर्ने"]

/-- `insert_footer_to_all_pages` (src/main.py lines 133-161): stores the
fields, removes every `w:p`/`w:tbl` child of the footer, then adds the
sentence paragraph and the one-row three-column signature table.  On an
unbound manager `self.doc.sections` raises, but only after `footer_info`
has already been assigned; the pair returns the post-state and the error. -/
def insert_footer_to_all_pages (m : FieldbookDocManager) (info : FooterInfo) :
    FieldbookDocManager × Option NotBoundError :=
  let m1 := { m with footer_info := some info }
  match m1.doc with
  | none => (m1, some .noneTypeAttribute)
  | some d =>
    ({ m1 with doc := some { d with
        footer := [.fpar (get_footer_line info), .ftable footer_cells] } }, none)

/-- `save` (src/main.py lines 187-191): rewrites the footer first when
footer fields are stored, then serializes the document when one is bound.
The triple is (post-state, written document content, raised error). -/
def save (m : FieldbookDocManager) :
    FieldbookDocManager × Option DocState × Option NotBoundError :=
  match m.footer_info with
  | some info =>
    match insert_footer_to_all_pages m info with
    | (m1, some e) => (m1, none, some e)
    | (m1, none) =>
      match m1.doc with
      | some d => (m1, some d, none)
      | none => (m1, none, none)
  | none =>
    match m.doc with
    | some d => (m, some d, none)
    | none => (m, none, none)

/-- `close` (src/main.py lines 194-199): releases the document and resets
every field except the constant page budget. -/
def close (m : FieldbookDocManager) : FieldbookDocManager :=
  { m with doc := none, loaded_template := none, images_on_page := 0, footer_info := none }

/-- The manager operations the program performs: binding a template,
adding an image, storing footer fields (`finalize_doc` assigns
`footer_info` only after checking `is_loaded()`), saving, closing. -/
inductive Op where
  | doBind (path : String) (tpl : DocState)
  | doAdd (img : Nat) (vdc ward sheet parcel : String)
  | doFinalize (info : FooterInfo)
  | doSave
  | doClose

/-- One operation applied to the manager state.  A raised exception leaves
the state as it was at the raise point. -/
def step (m : FieldbookDocManager) : Op → FieldbookDocManager
  | .doBind p t => new_from_template m p t
  | .doAdd img v w s pc =>
    match add_image m img v w s pc with
    | .ok m' => m'
    | .error _ => m
  | .doFinalize info => if m.doc.isSome then { m with footer_info := some info } else m
  | .doSave => (save m).1
  | .doClose => close m

/-- A sequence of operations applied to a manager state. -/
def run (m : FieldbookDocManager) (ops : List Op) : FieldbookDocManager :=
  ops.foldl step m

/-- The counter invariant of the assembler. -/
def MgrInv (m : FieldbookDocManager) : Prop :=
  m.images_on_page ≤ m.max_images_per_page ∧ 1 ≤ m.max_images_per_page

/-- The unbound-state invariant: an unbound manager has no stored footer
fields and a zero page counter. -/
def UnboundInv (m : FieldbookDocManager) : Prop :=
  m.doc = none → m.footer_info = none ∧ m.images_on_page = 0

/-! ## Helper lemmas -/

theorem save_images_eq (m : FieldbookDocManager) :
    (save m).1.images_on_page = m.images_on_page ∧
    (save m).1.max_images_per_page = m.max_images_per_page := by
  rcases hf : m.footer_info with _ | info <;> rcases hd : m.doc with _ | d <;>
    simp [save, insert_footer_to_all_pages, hf, hd]

theorem step_MgrInv {m : FieldbookDocManager} (op : Op) (h : MgrInv m) :
    MgrInv (step m op) := by
  obtain ⟨h1, h2⟩ := h
  cases op with
  | doBind p t => exact ⟨Nat.zero_le _, h2⟩
  | doAdd img v w s pc =>
    rcases hd : m.doc with _ | d
    · have hs : step m (Op.doAdd img v w s pc) = m := by simp [step, add_image, hd]
      rw [hs]; exact ⟨h1, h2⟩
    · by_cases hc : m.max_images_per_page ≤ m.images_on_page
      · have hs : step m (Op.doAdd img v w s pc) =
            { m with
              doc := some { body := d.body ++ [.pageBreak] ++
                [.caption (meta_text v w s pc), .picture img], footer := d.footer },
              images_on_page := 0 + 1 } := by
          simp [step, add_image, hd, hc]
        rw [hs]; exact ⟨by simpa using h2, h2⟩
      · have hs : step m (Op.doAdd img v w s pc) =
            { m with
              doc := some { body := d.body ++
                [.caption (meta_text v w s pc), .picture img], footer := d.footer },
              images_on_page := m.images_on_page + 1 } := by
          simp [step, add_image, hd, hc]
        rw [hs]; exact ⟨Nat.lt_of_not_le hc, h2⟩
  | doFinalize info =>
    rcases hd : m.doc with _ | d
    · have hs : step m (Op.doFinalize info) = m := by simp [step, hd]
      rw [hs]; exact ⟨h1, h2⟩
    · have hs : step m (Op.doFinalize info) = { m with footer_info := some info } := by
        simp [step, hd]
      rw [hs]; exact ⟨h1, h2⟩
  | doSave =>
    obtain ⟨e1, e2⟩ := save_images_eq m
    exact ⟨by rw [step]; rw [e1, e2]; exact h1, by rw [step]; rw [e2]; exact h2⟩
  | doClose => exact ⟨Nat.zero_le _, h2⟩

theorem run_MgrInv {m : FieldbookDocManager} (ops : List Op) (h : MgrInv m) :
    MgrInv (run m ops) := by
  induction ops generalizing m with
  | nil => exact h
  | cons op ops ih => exact ih (step_MgrInv op h)

theorem step_UnboundInv {m : FieldbookDocManager} (op : Op) (h : UnboundInv m) :
    UnboundInv (step m op) := by
  cases op with
  | doBind p t => intro hd; simp [step, new_from_template] at hd
  | doAdd img v w s pc =>
    rcases hd : m.doc with _ | d
    · simpa [step, add_image, hd] using h
    · intro hd'; simp [step, add_image, hd] at hd'
  | doFinalize info =>
    rcases hd : m.doc with _ | d
    · simpa [step, hd] using h
    · intro hd'; simp [step, hd] at hd'
  | doSave =>
    rcases hf : m.footer_info with _ | info
    · rcases hd : m.doc with _ | d <;> simpa [step, save, hf, hd] using h
    · rcases hd : m.doc with _ | d
      · exact absurd hf (by simp [(h hd).1])
      · intro hd'; simp [step, save, insert_footer_to_all_pages, hf, hd] at hd'
  | doClose => intro _; simp [step, close]

theorem run_UnboundInv {m : FieldbookDocManager} (ops : List Op) (h : UnboundInv m) :
    UnboundInv (run m ops) := by
  induction ops generalizing m with
  | nil => exact h
  | cons op ops ih => exact ih (step_UnboundInv op h)

/-! ## Claim theorems -/

/-- C5: the numeral substitution maps each decimal digit to exactly one
Devanagari digit glyph through a total one-to-one table, leaves every other
character unchanged, and in particular sends "123" to "१२३" and
"Ward 12" to "Ward १२". -/
theorem C5_numeral_substitution :
    to_nepali_number "123" = "१२३" ∧
    to_nepali_number "Ward 12" = "Ward १२" ∧
    (∀ c ∈ digitChars, devanagariOfDigit c ∈ devanagariDigits) ∧
    (∀ c1 ∈ digitChars, ∀ c2 ∈ digitChars,
      devanagariOfDigit c1 = devanagariOfDigit c2 → c1 = c2) ∧
    (∀ c : Char, c ∉ digitChars → devanagariOfDigit c = c) := by
  refine ⟨by decide, by decide, by decide, by decide, ?_⟩
  intro c hc
  simp only [digitChars, List.mem_cons, List.not_mem_nil, or_false] at hc
  push_neg at hc
  obtain ⟨h0, h1, h2, h3, h4, h5, h6, h7, h8, h9⟩ := hc
  simp [devanagariOfDigit, h0, h1, h2, h3, h4, h5, h6, h7, h8, h9]

/-- Witness for C5 at concrete characters. -/
theorem C5_numeral_substitution_witness :
    devanagariOfDigit 'W' = 'W' ∧ devanagariOfDigit '1' ∈ devanagariDigits :=
  ⟨C5_numeral_substitution.2.2.2.2 'W' (by decide),
   C5_numeral_substitution.2.2.1 '1' (by decide)⟩

/-- C1: the search returns the first file in enumeration order whose decoded
inclusive range contains the parcel, ignoring later files; with files
"1-5.jpg" then "3-9.jpg" and parcel 4 it returns "1-5.jpg", and with
"1-5.jpg", "6-9.jpg" and parcel 10 it returns no match. -/
theorem C1_first_match :
    (∀ (fs1 fs2 : List String) (f : String) (p : Nat),
      rangeContains f p = true → (∀ g ∈ fs1, rangeContains g p = false) →
      search_image (fs1 ++ f :: fs2) p = some f) ∧
    search_image ["1-5.jpg", "3-9.jpg"] 4 = some "1-5.jpg" ∧
    search_image ["1-5.jpg", "6-9.jpg"] 10 = none := by
  refine ⟨?_, by decide, by decide⟩
  intro fs1 fs2 f p hf hnone
  have h1 : fs1.find? (fun g => rangeContains g p) = none :=
    List.find?_eq_none.2 (fun g hg => by simp [hnone g hg])
  simp [search_image, List.find?_append, h1, List.find?_cons_of_pos, hf]

/-- Witness for C1 at a concrete listing. -/
theorem C1_first_match_witness :
    search_image (([] : List String) ++ "1-5.jpg" :: ["3-9.jpg"]) 4 = some "1-5.jpg" :=
  C1_first_match.1 [] ["3-9.jpg"] "1-5.jpg" 4 (by decide) (by simp)

/-- C3: what the code actually does on an absent leaf directory: the
unguarded `os.listdir` raises `FileNotFoundError` instead of treating the
directory as an empty listing. -/
theorem C3_absent_directory_raises :
    ∀ p : Nat, search_image_fs none p = .error .fileNotFound :=
  fun _ => rfl

/-- C8: adding an image to a manager that is not bound fails (the `None`
section dereference), for every image and metadata. -/
theorem C8_add_image_unbound :
    ∀ (m : FieldbookDocManager) (img : Nat) (vdc ward sheet parcel : String),
      m.doc = none →
      add_image m img vdc ward sheet parcel = .error .noneTypeAttribute := by
  intro m img vdc ward sheet parcel hd
  simp [add_image, hd]

/-- Witness for C8 at the freshly constructed manager. -/
theorem C8_add_image_unbound_witness :
    add_image initMgr 0 "a" "b" "c" "d" = .error .noneTypeAttribute :=
  C8_add_image_unbound initMgr 0 "a" "b" "c" "d" rfl

/-- C9: the invariant 0 ≤ images_on_page ≤ max_images_per_page holds after
construction, is preserved by every single assembler operation, and hence
holds after every sequence of assembler operations. -/
theorem C9_counter_invariant :
    (0 ≤ initMgr.images_on_page ∧ initMgr.images_on_page ≤ initMgr.max_images_per_page) ∧
    (∀ (m : FieldbookDocManager) (op : Op), MgrInv m → MgrInv (step m op)) ∧
    (∀ ops : List Op,
      0 ≤ (run initMgr ops).images_on_page ∧
      (run initMgr ops).images_on_page ≤ (run initMgr ops).max_images_per_page) :=
  ⟨⟨Nat.zero_le _, by decide⟩,
   fun _ op h => step_MgrInv op h,
   fun ops => ⟨Nat.zero_le _, (run_MgrInv ops ⟨Nat.zero_le 3, by decide⟩).1⟩⟩

/-- Witness for C9 applying the preservation part at a concrete state. -/
theorem C9_counter_invariant_witness :
    MgrInv (step initMgr Op.doClose) :=
  C9_counter_invariant.2.1 initMgr Op.doClose ⟨Nat.zero_le _, by decide⟩

/-- C10: every manager operation preserves the invariant that an unbound
manager has no stored footer fields and a zero counter; consequently, after
every sequence of operations, saving an unbound manager is a total no-op:
no document content is written, no error is raised, the state is unchanged. -/
theorem C10_unbound_save_noop :
    (∀ (m : FieldbookDocManager) (op : Op), UnboundInv m → UnboundInv (step m op)) ∧
    (∀ ops : List Op,
      ((run initMgr ops).doc = none →
        (run initMgr ops).footer_info = none ∧ (run initMgr ops).images_on_page = 0) ∧
      ((run initMgr ops).doc = none →
        save (run initMgr ops) = (run initMgr ops, none, none))) := by
  refine ⟨fun _ op h => step_UnboundInv op h, fun ops => ?_⟩
  have hinv : UnboundInv (run initMgr ops) :=
    run_UnboundInv ops (fun _ => ⟨rfl, rfl⟩)
  refine ⟨hinv, fun hd => ?_⟩
  simp [save, (hinv hd).1, hd]

/-- Witness for C10 at the empty operation sequence. -/
theorem C10_unbound_save_noop_witness :
    (initMgr.footer_info = none ∧ initMgr.images_on_page = 0) ∧
      save initMgr = (initMgr, none, none) :=
  ⟨(C10_unbound_save_noop.2 []).1 rfl, (C10_unbound_save_noop.2 []).2 rfl⟩

/-- C4: on a freshly bound assembler with max_images_per_page = 3, adding 4
images inserts exactly one page break, immediately before the 4th caption
and image, leaving the counter at 1; in general, an add inserts a page
break and resets the counter to 0 exactly when it would exceed the budget
(i.e. exactly when the counter has reached max_images_per_page). -/
theorem C4_pagination :
    (run initMgr
      [.doBind "t.docx" ⟨[], []⟩,
       .doAdd 1 "VDC" "1" "1" "1", .doAdd 2 "VDC" "1" "1" "2",
       .doAdd 3 "VDC" "1" "1" "3", .doAdd 4 "VDC" "1" "1" "4"] =
      { doc := some ⟨[.caption (meta_text "VDC" "1" "1" "1"), .picture 1,
                      .caption (meta_text "VDC" "1" "1" "2"), .picture 2,
                      .caption (meta_text "VDC" "1" "1" "3"), .picture 3,
                      .pageBreak,
                      .caption (meta_text "VDC" "1" "1" "4"), .picture 4], []⟩,
        images_on_page := 1, max_images_per_page := 3,
        loaded_template := some "t.docx", footer_info := none }) ∧
    (∀ (m : FieldbookDocManager) (d : DocState) (img : Nat) (v w s pc : String),
      m.doc = some d → m.images_on_page ≤ m.max_images_per_page →
      ∃ d', add_image m img v w s pc =
          .ok { m with
                doc := some d',
                images_on_page :=
                  if m.images_on_page = m.max_images_per_page then 1
                  else m.images_on_page + 1 } ∧
        countBreaks d'.body = countBreaks d.body +
          (if m.images_on_page = m.max_images_per_page then 1 else 0)) := by
  refine ⟨by decide, ?_⟩
  intro m d img v w s pc hd hcnt
  by_cases h : m.images_on_page = m.max_images_per_page
  · have hc : m.max_images_per_page ≤ m.images_on_page := Nat.le_of_eq h.symm
    refine ⟨⟨d.body ++ [.pageBreak] ++ [.caption (meta_text v w s pc), .picture img],
      d.footer⟩, ?_, ?_⟩
    · simp [add_image, hd, hc, h, List.append_assoc]
    · simp [countBreaks, List.countP_append, List.countP_cons, DocEntry.isBreak, h]
  · have hc : ¬ m.max_images_per_page ≤ m.images_on_page :=
      fun hle => h (Nat.le_antisymm hcnt hle)
    refine ⟨⟨d.body ++ [.caption (meta_text v w s pc), .picture img], d.footer⟩, ?_, ?_⟩
    · simp [add_image, hd, hc, h]
    · simp [countBreaks, List.countP_append, List.countP_cons, DocEntry.isBreak, h]

/-- Witness for C4 at a concrete bound manager whose page is full. -/
theorem C4_pagination_witness :
    ∃ d', add_image
        { doc := some ⟨[], []⟩, images_on_page := 3, max_images_per_page := 3,
          loaded_template := some "t.docx", footer_info := none } 7 "a" "b" "c" "d" =
      .ok { doc := some d',
            images_on_page := if 3 = 3 then 1 else 3 + 1,
            max_images_per_page := 3,
            loaded_template := some "t.docx", footer_info := none } ∧
      countBreaks d'.body = countBreaks ([] : List DocEntry) + (if 3 = 3 then 1 else 0) :=
  C4_pagination.2
    { doc := some ⟨[], []⟩, images_on_page := 3, max_images_per_page := 3,
      loaded_template := some "t.docx", footer_info := none }
    ⟨[], []⟩ 7 "a" "b" "c" "d" rfl (by decide)

/-- C7: saving is idempotent: if a save succeeds, producing state m1 and
written content w1, then saving again from m1 succeeds with the same state
and the same written content, because the footer write clears the prior
footer children before re-adding the sentence and the signature table. -/
theorem C7_save_idempotent :
    ∀ (m m1 : FieldbookDocManager) (w1 : Option DocState),
      save m = (m1, w1, none) → save m1 = (m1, w1, none) := by
  intro m m1 w1 h
  rcases hf : m.footer_info with _ | info <;> rcases hd : m.doc with _ | d
  · simp [save, hf, hd] at h
    obtain ⟨rfl, rfl⟩ := h
    simp [save, hf, hd]
  · simp [save, hf, hd] at h
    obtain ⟨rfl, rfl⟩ := h
    simp [save, hf, hd]
  · simp [save, insert_footer_to_all_pages, hf, hd] at h
  · simp [save, insert_footer_to_all_pages, hf, hd] at h
    obtain ⟨rfl, rfl⟩ := h
    simp [save, insert_footer_to_all_pages]

/-- Witness for C7 at the fresh manager. -/
theorem C7_save_idempotent_witness :
    save initMgr = (initMgr, none, none) :=
  C7_save_idempotent initMgr initMgr none rfl

theorem extOk_iff (rest : List Char) :
    extOk rest = true ↔ ∃ ext tail, rest = ext ++ tail ∧ jpgOrJpeg ext := by
  constructor
  · intro h
    rcases rest with _ | ⟨c1, rest1⟩
    · simp [extOk] at h
    rcases rest1 with _ | ⟨c2, rest2⟩
    · simp [extOk] at h
    simp only [extOk, Bool.and_eq_true] at h
    obtain ⟨⟨hj, hp⟩, ht⟩ := h
    rcases rest2 with _ | ⟨c3, rest3⟩
    · simp [matchExtTail] at ht
    simp only [matchExtTail, Bool.or_eq_true, Bool.and_eq_true] at ht
    rcases ht with ⟨he, hg⟩ | hg
    · rcases rest3 with _ | ⟨c4, rest4⟩
      · simp at hg
      refine ⟨[c1, c2, c3, c4], rest4, rfl, Or.inr ⟨c1, c2, c3, c4, rfl, ?_, ?_, ?_, ?_⟩⟩
      · simpa [isJchar] using hj
      · simpa [isPchar] using hp
      · simpa [isEchar] using he
      · simpa [isGchar] using hg
    · refine ⟨[c1, c2, c3], rest3, rfl, Or.inl ⟨c1, c2, c3, rfl, ?_, ?_, ?_⟩⟩
      · simpa [isJchar] using hj
      · simpa [isPchar] using hp
      · simpa [isGchar] using hg
  · rintro ⟨ext, tail, rfl, hj⟩
    rcases hj with ⟨c1, c2, c3, rfl, h1, h2, h3⟩ | ⟨c1, c2, c3, c4, rfl, h1, h2, h3, h4⟩
    · rcases h1 with rfl | rfl <;> rcases h2 with rfl | rfl <;> rcases h3 with rfl | rfl <;>
        simp [extOk, matchExtTail, isJchar, isPchar, isEchar, isGchar]
    · rcases h1 with rfl | rfl <;> rcases h2 with rfl | rfl <;>
        rcases h3 with rfl | rfl <;> rcases h4 with rfl | rfl <;>
          simp [extOk, matchExtTail, isJchar, isPchar, isEchar, isGchar]

/-- C2: amended characterization of the decoder.  The code uses re.match,
which anchors only at the start of the filename, so decode succeeds exactly
on filenames whose PREFIX matches (digits)-(digits).(jpg|jpeg) with
case-insensitive extension, trailing characters after the extension being
accepted; the captured digit groups are returned as decimal values and
non-matching filenames yield none (the function is total, nothing is
raised). -/
theorem C2_decode_characterization :
    ∀ (s : String) (a b : Nat),
      decode s = some (a, b) ↔
        ∃ d1 d2 rest, s.data = d1 ++ '-' :: (d2 ++ '.' :: rest) ∧
          d1 ≠ [] ∧ d2 ≠ [] ∧
          (∀ c ∈ d1, c.isDigit = true) ∧ (∀ c ∈ d2, c.isDigit = true) ∧
          (∃ ext tail, rest = ext ++ tail ∧ jpgOrJpeg ext) ∧
          a = natOfDigits d1 ∧ b = natOfDigits d2 := by
  intro s a b
  unfold decode
  generalize s.data = cs
  constructor
  · intro h
    unfold decodeChars at h
    split at h
    case h_2 => exact absurd h (by simp)
    case h_1 c r2 heq =>
      split at h
      case isFalse => exact absurd h (by simp)
      case isTrue hdash =>
        subst hdash
        split at h
        case h_2 => exact absurd h (by simp)
        case h_1 c' r4 heq2 =>
          split at h
          case isFalse => exact absurd h (by simp)
          case isTrue hdot =>
            subst hdot
            split at h
            case isTrue => exact absurd h (by simp)
            case isFalse hemp =>
              split at h
              case isFalse => exact absurd h (by simp)
              case isTrue hext =>
                simp only [Option.some.injEq, Prod.mk.injEq] at h
                obtain ⟨ha, hb⟩ := h
                simp only [Bool.or_eq_true, not_or, List.isEmpty_iff] at hemp
                obtain ⟨hne1, hne2⟩ := hemp
                refine ⟨cs.takeWhile Char.isDigit, r2.takeWhile Char.isDigit, r4,
                  ?_, hne1, hne2,
                  fun c hc => List.mem_takeWhile_imp hc,
                  fun c hc => List.mem_takeWhile_imp hc,
                  (extOk_iff r4).1 hext, ha.symm, hb.symm⟩
                calc cs = cs.takeWhile Char.isDigit ++ cs.dropWhile Char.isDigit :=
                        (List.takeWhile_append_dropWhile Char.isDigit cs).symm
                  _ = cs.takeWhile Char.isDigit ++ '-' :: r2 := by rw [heq]
                  _ = cs.takeWhile Char.isDigit ++
                        '-' :: (r2.takeWhile Char.isDigit ++ r2.dropWhile Char.isDigit) := by
                        rw [List.takeWhile_append_dropWhile]
                  _ = cs.takeWhile Char.isDigit ++
                        '-' :: (r2.takeWhile Char.isDigit ++ '.' :: r4) := by rw [heq2]
  · rintro ⟨d1, d2, rest, rfl, hne1, hne2, hdig1, hdig2, hext, rfl, rfl⟩
    have t1 : (d1 ++ '-' :: (d2 ++ '.' :: rest)).takeWhile Char.isDigit = d1 := by
      rw [List.takeWhile_append_of_pos hdig1, List.takeWhile_cons_of_neg (by decide)]
      simp
    have t2 : (d1 ++ '-' :: (d2 ++ '.' :: rest)).dropWhile Char.isDigit =
        '-' :: (d2 ++ '.' :: rest) := by
      rw [List.dropWhile_append_of_pos hdig1, List.dropWhile_cons_of_neg (by decide)]
    have t3 : (d2 ++ '.' :: rest).takeWhile Char.isDigit = d2 := by
      rw [List.takeWhile_append_of_pos hdig2, List.takeWhile_cons_of_neg (by decide)]
      simp
    have t4 : (d2 ++ '.' :: rest).dropWhile Char.isDigit = '.' :: rest := by
      rw [List.dropWhile_append_of_pos hdig2, List.dropWhile_cons_of_neg (by decide)]
    unfold decodeChars
    split
    case h_2 heq => rw [t2] at heq; exact absurd heq (by simp)
    case h_1 c r2 heq =>
      rw [t2] at heq
      injection heq with h1 h2
      subst h1; subst h2
      rw [if_pos rfl]
      split
      case h_2 heq2 => rw [t4] at heq2; exact absurd heq2 (by simp)
      case h_1 c' r4 heq2 =>
        rw [t4] at heq2
        injection heq2 with h3 h4
        subst h3; subst h4
        rw [if_pos rfl, t1, t3]
        have hcond : ¬ ((d1.isEmpty || d2.isEmpty) = true) := by
          simp [List.isEmpty_iff, hne1, hne2]
        rw [if_neg hcond, if_pos ((extOk_iff rest).2 hext)]

/-- C2 counterexample: the filename 1-5.jpgx does not match the spec's
anchored pattern (trailing character after the extension), yet the code's
decode succeeds on it, returning the range (1, 5); the claim that decode
returns no value on every such filename is therefore false. -/
theorem C2_decode_counterexample :
    decode "1-5.jpgx" = some (1, 5) ∧ specFullMatch "1-5.jpgx" = none :=
  ⟨by decide, by decide⟩

/-- Witness for C2 applying the characterization at a concrete filename. -/
theorem C2_decode_characterization_witness :
    decode "01-5.JPeG" = some (1, 5) :=
  (C2_decode_characterization "01-5.JPeG" 1 5).2
    ⟨['0', '1'], ['5'], ['J', 'P', 'e', 'G'], by decide, by decide, by decide,
      by decide, by decide,
      ⟨['J', 'P', 'e', 'G'], [], by decide,
        Or.inr ⟨'J', 'P', 'e', 'G', rfl, Or.inr rfl, Or.inr rfl, Or.inl rfl, Or.inr rfl⟩⟩,
      by decide, by decide⟩

theorem infix_append_left {α : Type} (x : List α) {v y : List α} (h : v <:+: y) :
    v <:+: x ++ y := by
  obtain ⟨s, t, rfl⟩ := h
  exact ⟨x ++ s, t, by simp [List.append_assoc]⟩

theorem infix_append_cons {α : Type} {r a b : List α} {d : α}
    (h : r <:+: a ++ d :: b) : d ∈ r ∨ r <:+: a ∨ r <:+: b := by
  obtain ⟨s, t, hst⟩ := h
  have h2 : s ++ (r ++ t) = a ++ (d :: b) := by simpa [List.append_assoc] using hst
  rcases List.append_eq_append_iff.1 h2 with ⟨a', ha, hrt⟩ | ⟨c', hs, hdb⟩
  · rcases List.append_eq_append_iff.1 hrt with ⟨a'', ha', hdb⟩ | ⟨c', hr, hdb⟩
    · exact Or.inr (Or.inl ⟨s, a'', by rw [ha, ha']; simp [List.append_assoc]⟩)
    · rcases c' with _ | ⟨e, c''⟩
      · simp only [List.append_nil] at hr
        exact Or.inr (Or.inl ⟨s, [], by rw [ha, hr]; simp⟩)
      · rw [List.cons_append] at hdb
        injection hdb with hde hb'
        subst hde
        exact Or.inl (by rw [hr]; simp)
  · rcases c' with _ | ⟨e, c''⟩
    · rw [List.nil_append] at hdb
      rcases r with _ | ⟨f, r'⟩
      · exact Or.inr (Or.inr ⟨[], b, by simp⟩)
      · rw [List.cons_append] at hdb
        injection hdb with hdf hb'
        subst hdf
        exact Or.inl (by simp)
    · rw [List.cons_append] at hdb
      injection hdb with hde hb'
      exact Or.inr (Or.inr ⟨c'', t, by rw [hb', List.append_assoc]⟩)

theorem noDotRun_append_space {x y : List Char}
    (hx : ¬ dotsRun 7 <:+: x) (hy : ¬ dotsRun 7 <:+: y) :
    ¬ dotsRun 7 <:+: x ++ ' ' :: y := by
  intro h
  rcases infix_append_cons h with hmem | hx' | hy'
  · exact absurd hmem (by decide)
  · exact hx hx'
  · exact hy hy'

/-- C6: amended footer-sentence property.  For every assignment of the five
fields: each non-empty field value appears verbatim in the sentence in its
slot, each empty field's slot holds its dotted placeholder run; with all
five fields empty the five dotted runs all appear; and if all five fields
are non-empty AND none of them itself contains a run of seven consecutive
dots (the amendment forced by the counterexample), then no run of seven
consecutive dots - hence none of the placeholder runs - appears anywhere
in the sentence. -/
theorem C6_footer_line :
    ∀ info : FooterInfo,
      (info.patra_pathaune ≠ "" → info.patra_pathaune.data <:+: (get_footer_line info).data) ∧
      (info.chan_dan ≠ "" → info.chan_dan.data <:+: (get_footer_line info).data) ∧
      (info.miti ≠ "" → info.miti.data <:+: (get_footer_line info).data) ∧
      (info.prayojan ≠ "" → info.prayojan.data <:+: (get_footer_line info).data) ∧
      (info.rasid_no ≠ "" → info.rasid_no.data <:+: (get_footer_line info).data) ∧
      (info.patra_pathaune = "" → dots20.data <:+: (get_footer_line info).data) ∧
      (info.chan_dan = "" → dots7.data <:+: (get_footer_line info).data) ∧
      (info.miti = "" → dots13.data <:+: (get_footer_line info).data) ∧
      (info.prayojan = "" → dots15.data <:+: (get_footer_line info).data) ∧
      (info.rasid_no = "" → dots21.data <:+: (get_footer_line info).data) ∧
      ((info.patra_pathaune ≠ "" ∧ info.chan_dan ≠ "" ∧ info.miti ≠ "" ∧
        info.prayojan ≠ "" ∧ info.rasid_no ≠ "" ∧
        ¬ dotsRun 7 <:+: info.patra_pathaune.data ∧
        ¬ dotsRun 7 <:+: info.chan_dan.data ∧
        ¬ dotsRun 7 <:+: info.miti.data ∧
        ¬ dotsRun 7 <:+: info.prayojan.data ∧
        ¬ dotsRun 7 <:+: info.rasid_no.data) →
        ¬ dotsRun 7 <:+: (get_footer_line info).data) := by
  intro info
  have hdata : (get_footer_line info).data =
      ("श्री " : String).data ++ ((safe info.patra_pathaune dots20).data ++
      ((" को च.नं./द.नं. " : String).data ++ ((safe info.chan_dan dots7).data ++
      ((" मिति " : String).data ++ ((safe info.miti dots13).data ++
      ((" को पत्रानुसार " : String).data ++ ((safe info.prayojan dots15).data ++
      ((" प्रयोजनको लागि  रसिद नं " : String).data ++ ((safe info.rasid_no dots21).data ++
      (" बाट राजश्व लिई कम्प्युटरबाट फिल्डबुक/प्लट रजिष्टर प्रतिलिपि उतार गरि पठाइएको व्यहोरा अनुरोध छ ।" : String).data))))))))) := by
    simp [get_footer_line, List.append_assoc]
  have h1 : (safe info.patra_pathaune dots20).data <:+: (get_footer_line info).data := by
    rw [hdata]; exact List.infix_append' _ _ _
  have h2 : (safe info.chan_dan dots7).data <:+: (get_footer_line info).data := by
    rw [hdata]
    exact infix_append_left _ (infix_append_left _ (List.infix_append' _ _ _))
  have h3 : (safe info.miti dots13).data <:+: (get_footer_line info).data := by
    rw [hdata]
    exact infix_append_left _ (infix_append_left _ (infix_append_left _
      (infix_append_left _ (List.infix_append' _ _ _))))
  have h4 : (safe info.prayojan dots15).data <:+: (get_footer_line info).data := by
    rw [hdata]
    exact infix_append_left _ (infix_append_left _ (infix_append_left _
      (infix_append_left _ (infix_append_left _ (infix_append_left _
        (List.infix_append' _ _ _))))))
  have h5 : (safe info.rasid_no dots21).data <:+: (get_footer_line info).data := by
    rw [hdata]
    exact infix_append_left _ (infix_append_left _ (infix_append_left _
      (infix_append_left _ (infix_append_left _ (infix_append_left _
        (infix_append_left _ (infix_append_left _ (List.infix_append' _ _ _))))))))
  refine ⟨fun h => ?_, fun h => ?_, fun h => ?_, fun h => ?_, fun h => ?_,
    fun h => ?_, fun h => ?_, fun h => ?_, fun h => ?_, fun h => ?_, fun h => ?_⟩
  · have t := h1; rwa [safe, if_neg h] at t
  · have t := h2; rwa [safe, if_neg h] at t
  · have t := h3; rwa [safe, if_neg h] at t
  · have t := h4; rwa [safe, if_neg h] at t
  · have t := h5; rwa [safe, if_neg h] at t
  · have t := h1; rwa [safe, if_pos h] at t
  · have t := h2; rwa [safe, if_pos h] at t
  · have t := h3; rwa [safe, if_pos h] at t
  · have t := h4; rwa [safe, if_pos h] at t
  · have t := h5; rwa [safe, if_pos h] at t
  · obtain ⟨hn1, hn2, hn3, hn4, hn5, hr1, hr2, hr3, hr4, hr5⟩ := h
    have e0 : ("श्री " : String).data = ("श्री" : String).data ++ [' '] := by decide
    have e1 : (" को च.नं./द.नं. " : String).data =
        [' '] ++ (("को च.नं./द.नं." : String).data ++ [' ']) := by decide
    have e2 : (" मिति " : String).data = [' '] ++ (("मिति" : String).data ++ [' ']) := by decide
    have e3 : (" को पत्रानुसार " : String).data =
        [' '] ++ (("को पत्रानुसार" : String).data ++ [' ']) := by decide
    have e4 : (" प्रयोजनको लागि  रसिद नं " : String).data =
        [' '] ++ (("प्रयोजनको लागि  रसिद नं" : String).data ++ [' ']) := by decide
    have e5 : (" बाट राजश्व लिई कम्प्युटरबाट फिल्डबुक/प्लट रजिष्टर प्रतिलिपि उतार गरि पठाइएको व्यहोरा अनुरोध छ ।" : String).data =
        [' '] ++ ("बाट राजश्व लिई कम्प्युटरबाट फिल्डबुक/प्लट रजिष्टर प्रतिलिपि उतार गरि पठाइएको व्यहोरा अनुरोध छ ।" : String).data := by decide
    have hdata2 : (get_footer_line info).data =
        ("श्री" : String).data ++ ' ' ::
        ((safe info.patra_pathaune dots20).data ++ ' ' ::
        (("को च.नं./द.नं." : String).data ++ ' ' ::
        ((safe info.chan_dan dots7).data ++ ' ' ::
        (("मिति" : String).data ++ ' ' ::
        ((safe info.miti dots13).data ++ ' ' ::
        (("को पत्रानुसार" : String).data ++ ' ' ::
        ((safe info.prayojan dots15).data ++ ' ' ::
        (("प्रयोजनको लागि  रसिद नं" : String).data ++ ' ' ::
        ((safe info.rasid_no dots21).data ++ ' ' ::
        ("बाट राजश्व लिई कम्प्युटरबाट फिल्डबुक/प्लट रजिष्टर प्रतिलिपि उतार गरि पठाइएको व्यहोरा अनुरोध छ ।" : String).data))))))))) := by
      rw [hdata, e0, e1, e2, e3, e4, e5]
      simp [List.append_assoc]
    have hs1 : ¬ dotsRun 7 <:+: (safe info.patra_pathaune dots20).data := by
      rwa [safe, if_neg hn1]
    have hs2 : ¬ dotsRun 7 <:+: (safe info.chan_dan dots7).data := by
      rwa [safe, if_neg hn2]
    have hs3 : ¬ dotsRun 7 <:+: (safe info.miti dots13).data := by
      rwa [safe, if_neg hn3]
    have hs4 : ¬ dotsRun 7 <:+: (safe info.prayojan dots15).data := by
      rwa [safe, if_neg hn4]
    have hs5 : ¬ dotsRun 7 <:+: (safe info.rasid_no dots21).data := by
      rwa [safe, if_neg hn5]
    rw [hdata2]
    exact noDotRun_append_space (by decide)
      (noDotRun_append_space hs1
        (noDotRun_append_space (by decide)
          (noDotRun_append_space hs2
            (noDotRun_append_space (by decide)
              (noDotRun_append_space hs3
                (noDotRun_append_space (by decide)
                  (noDotRun_append_space hs4
                    (noDotRun_append_space (by decide)
                      (noDotRun_append_space hs5 (by decide))))))))))

/-- C6 counterexample: with every field set to the seven-dot string, all
five fields are non-empty, yet a dotted placeholder run does appear in the
rendered sentence (the fields are substituted verbatim), contradicting the
claim's universally quantified final clause. -/
theorem C6_footer_counterexample :
    ((FooterInfo.mk "......." "......." "......." "......." ".......").patra_pathaune ≠ "" ∧
     (FooterInfo.mk "......." "......." "......." "......." ".......").chan_dan ≠ "" ∧
     (FooterInfo.mk "......." "......." "......." "......." ".......").miti ≠ "" ∧
     (FooterInfo.mk "......." "......." "......." "......." ".......").prayojan ≠ "" ∧
     (FooterInfo.mk "......." "......." "......." "......." ".......").rasid_no ≠ "") ∧
    dotsRun 7 <:+:
      (get_footer_line (FooterInfo.mk "......." "......." "......." "......." ".......")).data := by
  exact ⟨by decide, by decide⟩

/-- Witness for C6 at a concrete all-populated, dot-free assignment. -/
theorem C6_footer_line_witness :
    ¬ dotsRun 7 <:+: (get_footer_line (FooterInfo.mk "A" "12" "2081" "B" "45")).data :=
  (C6_footer_line (FooterInfo.mk "A" "12" "2081" "B" "45")).2.2.2.2.2.2.2.2.2.2
    ⟨by decide, by decide, by decide, by decide, by decide,
     by decide, by decide, by decide, by decide, by decide⟩

end FieldbookViewer
